import Mathlib

/-!
Shallow embedding of the YouTube-Downloader repository (src/downloader.py
and src/app.py).  Pure string and option manipulation is translated
directly; calls into the external extraction engine (yt_dlp) are modelled
as oracle parameters, console and GUI output as explicit event lists, and
a raised Python exception as a none / Except.error result.  The floating
point percentage arithmetic of the progress hooks is modelled by exact
integer arithmetic (int() on a non-negative value is floor division).
-/

/-- ASCII whitespace stripped by Python str.strip (the rare non-ASCII
whitespace code points are elided). -/
def pyIsSpace (c : Char) : Bool :=
  c == ' ' || c == '\t' || c == '\n' || c == '\r' || c == '\x0b' || c == '\x0c'

/-- Python str.strip on a list of characters: drop whitespace from both
ends. -/
def pyStripList (l : List Char) : List Char :=
  ((l.dropWhile pyIsSpace).reverse.dropWhile pyIsSpace).reverse

/-- Python str.strip. -/
def pyStrip (s : String) : String :=
  String.mk (pyStripList s.toList)

/-- Non-empty, non-dot components of a POSIX path (pathlib drops empty and
single-dot components). -/
def pyPathParts (s : String) : List String :=
  (s.splitOn "/").filter (fun p => p != "" && p != ".")

/-- pathlib.PurePosixPath(s).name: the final path component (empty for a
pure root). -/
def pyPathName (s : String) : String :=
  ((pyPathParts s).getLast?).getD ""

/-- Index of the last dot in a list of characters (Python str.rfind). -/
def lastDotIdx (l : List Char) : Option Nat :=
  (l.reverse.findIdx? (fun c => c == '.')).map (fun j => l.length - 1 - j)

/-- pathlib.PurePosixPath(s).stem: the final component without its last
suffix; the suffix is dropped only when the last dot is neither the first
nor the last character of the name. -/
def pyStem (s : String) : String :=
  let name := pyPathName s
  let l := name.toList
  match lastDotIdx l with
  | some i => if 0 < i ∧ i < l.length - 1 then String.mk (l.take i) else name
  | none => name

/-- str(pathlib.PurePosixPath(s)): drops empty and single-dot components,
preserves rootedness (with the POSIX double-slash special case), and
renders the empty relative path as a single dot. -/
def pyPathStr (s : String) : String :=
  let parts := pyPathParts s
  let root :=
    if s.startsWith "//" && !(s.startsWith "///") then "//"
    else if s.startsWith "/" then "/"
    else ""
  if parts.isEmpty then (if root = "" then "." else root)
  else root ++ String.intercalate "/" parts

/-- Python truthiness of an Optional[str] value: None and the empty string
are falsy. -/
def pyTruthyStr (o : Option String) : Bool :=
  match o with
  | none => false
  | some s => s != ""

/-- The Quality enum of downloader.py. -/
inductive Quality where
  | BEST
  | HD_4K
  | HD_1080
  | HD_720
  | AUDIO_ONLY
deriving DecidableEq, Repr

/-- The string value carried by each Quality member. -/
def Quality.value : Quality → String
  | .BEST => "best[ext=mp4]/best"
  | .HD_4K => "best[height<=2160][ext=mp4]/bestvideo[height<=2160]+bestaudio[ext=m4a]/best[height<=2160]"
  | .HD_1080 => "best[height<=1080][ext=mp4]/bestvideo[height<=1080]+bestaudio[ext=m4a]/best[height<=1080]"
  | .HD_720 => "best[height<=720][ext=mp4]/bestvideo[height<=720]+bestaudio[ext=m4a]/best[height<=720]"
  | .AUDIO_ONLY => "bestaudio"

/-- The VideoFormat enum of downloader.py. -/
inductive VideoFormat where
  | MP4
  | WEBM
  | MKV
  | AVI
deriving DecidableEq, Repr

/-- The string value of each VideoFormat member. -/
def VideoFormat.value : VideoFormat → String
  | .MP4 => "mp4"
  | .WEBM => "webm"
  | .MKV => "mkv"
  | .AVI => "avi"

/-- Python truthiness of an enum member: always true (models the
`self.preferred_format` test in _get_ydl_opts). -/
def pyTruthyVideoFormat (_ : VideoFormat) : Bool := true

/-- A yt-dlp progress-hook event dictionary: the status plus the optional
keys the hooks read (a Python `'key' in d` test is an isSome test here). -/
structure PEvent where
  status : String
  downloaded_bytes : Nat := 0
  total_bytes : Option Nat := none
  total_bytes_estimate : Option Nat := none
  filename : String := ""
  error : Option String := none
deriving DecidableEq, Repr

/-- The total used by the downloading branch of both hooks: total_bytes if
present, else total_bytes_estimate (the if/elif chain of the source). -/
def selectedTotal (d : PEvent) : Option Nat :=
  if d.total_bytes.isSome then d.total_bytes else d.total_bytes_estimate

/-- One console print of DefaultProgressHook, captured structurally: the
formatted f-strings are represented by the data they display. -/
inductive ConsoleOut where
  | progressBar (stage : String) (filled bar_length : Nat) (downloaded total : Nat)
  | downloadedLine (name : String)
  | errorLine (msg : String)
deriving DecidableEq, Repr

/-- The mutable state of DefaultProgressHook. -/
structure DefaultProgressHook where
  last_printed_percent : Int
  current_stage : String
deriving DecidableEq, Repr

/-- DefaultProgressHook.__init__. -/
def DefaultProgressHook.init : DefaultProgressHook :=
  { last_printed_percent := -1, current_stage := "Downloading" }

/-- DefaultProgressHook.__call__: the updated state and the prints emitted;
none models the ZeroDivisionError raised when the selected total is zero.
int(percent) on the non-negative percent is downloaded_bytes * 100 / total
rounded down, and the filled bar length int(30 * percent / 100) is
30 * downloaded_bytes / total rounded down. -/
def defaultHookCall (h : DefaultProgressHook) (d : PEvent) :
    Option (DefaultProgressHook × List ConsoleOut) :=
  if d.status = "downloading" then
    match selectedTotal d with
    | none => some (h, [])
    | some total =>
      if total = 0 then none
      else
        let current_percent : Int := ((d.downloaded_bytes * 100) / total : Nat)
        if current_percent ≠ h.last_printed_percent ∧ current_percent % 2 = 0 then
          let bar_length : Nat := 30
          let filled_length : Nat := (bar_length * d.downloaded_bytes) / total
          some ({ h with last_printed_percent := current_percent },
            [ConsoleOut.progressBar h.current_stage filled_length bar_length
              d.downloaded_bytes total])
        else some (h, [])
  else if d.status = "finished" then
    some (h, [ConsoleOut.downloadedLine (pyPathName d.filename)])
  else if d.status = "error" then
    some (h, [ConsoleOut.errorLine (d.error.getD "Unknown error")])
  else some (h, [])

/-- One GUI widget update of StreamlitProgressHook, captured structurally. -/
inductive GuiOut where
  | barProgress (n : Nat)
  | textDownloading (downloaded total : Nat)
  | textCompleted (filename : String)
  | textError (msg : String)
deriving DecidableEq, Repr

/-- The state of StreamlitProgressHook: the widget handles are replaced by
the emitted output list; last_percent is written at construction and never
updated by __call__. -/
structure StreamlitProgressHook where
  last_percent : Nat
deriving DecidableEq, Repr

/-- StreamlitProgressHook.__call__: bar and status-text updates emitted for
an event; none models the ZeroDivisionError on a zero total. -/
def streamlitHookCall (h : StreamlitProgressHook) (d : PEvent) :
    Option (StreamlitProgressHook × List GuiOut) :=
  if d.status = "downloading" then
    match selectedTotal d with
    | none => some (h, [])
    | some total =>
      if total = 0 then none
      else
        let percent : Nat := (d.downloaded_bytes * 100) / total
        some (h, [GuiOut.barProgress percent,
                  GuiOut.textDownloading d.downloaded_bytes total])
  else if d.status = "finished" then
    some (h, [GuiOut.barProgress 100, GuiOut.textCompleted (pyPathName d.filename)])
  else if d.status = "error" then
    some (h, [GuiOut.textError (d.error.getD "Unknown error")])
  else some (h, [])

/-- The confirmation loop of URLValidator.validate_url: consumes user
inputs until a yes or no answer; none models the loop never producing an
answer (input exhausted). -/
def ask_loop (inputs : List String) (url : String) : Option (Bool × String) :=
  match inputs with
  | [] => none
  | c :: rest =>
    let choice := (pyStrip c).toLower
    if choice = "y" ∨ choice = "yes" then some (true, url)
    else if choice = "n" ∨ choice = "no" then some (false, url)
    else ask_loop rest url

/-- URLValidator.validate_url.  The regex matcher and the yt-dlp probe are
oracle parameters (their internals are the regex engine and the network);
interactive user input is an explicit list of answers. -/
def validate_url (matches_pattern test_with_ydlp : String → Bool)
    (inputs : List String) (url : String) (interactive : Bool) :
    Option (Bool × String) :=
  let u := pyStrip url
  if matches_pattern u then some (true, u)
  else if test_with_ydlp u then some (true, u)
  else if interactive then ask_loop inputs u
  else some (false, u)

/-- The yt-dlp option dictionary built by URLValidator.get_video_info. -/
structure InfoOpts where
  quiet : Bool
  no_warnings : Bool
  extract_flat : Bool
deriving DecidableEq, Repr

/-- The metadata dictionary fields this repository reads. -/
structure VideoInfo where
  title : String := ""
  uploader : String := ""
  duration : Nat := 0
deriving DecidableEq, Repr

/-- URLValidator.get_video_info.  The extraction engine is an oracle taking
the options, the url and the download flag; Except.error models a raised
exception (the error print is console-only).  Returns the result together
with the trace of engine calls made. -/
def get_video_info
    (engine : InfoOpts → String → Bool → Except String (Option VideoInfo))
    (url : String) (extract_flat : Bool) :
    Option VideoInfo × List (InfoOpts × String × Bool) :=
  let opts : InfoOpts :=
    { quiet := true, no_warnings := true, extract_flat := extract_flat }
  match engine opts url false with
  | .ok info => (info, [(opts, url, false)])
  | .error _ => (none, [(opts, url, false)])

/-- URLValidator.get_video_info_fast. -/
def get_video_info_fast
    (engine : InfoOpts → String → Bool → Except String (Option VideoInfo))
    (url : String) : Option VideoInfo × List (InfoOpts × String × Bool) :=
  get_video_info engine url false

/-- The ffmpeg post-processor dictionaries used by _get_ydl_opts (the
preferedformat spelling follows the source). -/
inductive PostProcessor where
  | FFmpegExtractAudio (preferredcodec preferredquality : String)
  | FFmpegVideoConvertor (preferedformat : String)
  | FFmpegMetadata
deriving DecidableEq, Repr

/-- The yt-dlp option dictionary built by _get_ydl_opts; Option models the
keys that are only sometimes present.  α is the type of progress hooks. -/
structure YdlOpts (α : Type) where
  outtmpl : String
  progress_hooks : List α
  no_warnings : Bool
  ignoreerrors : Bool
  extract_flat : Bool
  merge_output_format : String
  format : Option String := none
  postprocessors : Option (List PostProcessor) := none
deriving DecidableEq, Repr

/-- The state of YouTubeDownloader: output_dir holds str(Path(...)) as
stored by __init__, custom_filename the Optional[str] argument as given. -/
structure YouTubeDownloader (α : Type) where
  output_dir : String
  custom_filename : Option String
  preferred_format : VideoFormat
  progress_hook : α

/-- YouTubeDownloader.__init__: output_dir goes through Path, and
preferred_format and the hook are coalesced with their defaults
(default_hook stands for the DefaultProgressHook() fallback in the
abstract hook type α). -/
def mkYouTubeDownloader {α : Type} (output_dir : String)
    (custom_filename : Option String) (preferred_format : Option VideoFormat)
    (progress_callback : Option α) (default_hook : α) : YouTubeDownloader α :=
  { output_dir := pyPathStr output_dir
    custom_filename := custom_filename
    preferred_format := preferred_format.getD VideoFormat.MP4
    progress_hook := progress_callback.getD default_hook }

/-- YouTubeDownloader._get_output_template. -/
def get_output_template {α : Type} (dl : YouTubeDownloader α)
    (is_playlist : Bool) (_video_info : Option VideoInfo) : String :=
  let base_dir := dl.output_dir
  if pyTruthyStr dl.custom_filename && !is_playlist then
    let name_without_ext := pyStem (dl.custom_filename.getD "")
    base_dir ++ "/" ++ name_without_ext ++ ".%(ext)s"
  else if is_playlist then
    base_dir ++ "/%(playlist)s/%(playlist_index)s - %(title)s.%(ext)s"
  else
    base_dir ++ "/%(title)s.%(ext)s"

/-- YouTubeDownloader._build_format_string (the dict .get defaults are the
AUDIO_ONLY fallthrough arms). -/
def build_format_string (quality : Quality) (force_convert : Bool) : String :=
  if force_convert then
    match quality with
    | .BEST => "best"
    | .HD_4K => "bestvideo[height<=2160]+bestaudio/best[height<=2160]"
    | .HD_1080 => "bestvideo[height<=1080]+bestaudio/best[height<=1080]"
    | .HD_720 => "bestvideo[height<=720]+bestaudio/best[height<=720]"
    | .AUDIO_ONLY => "best"
  else
    match quality with
    | .BEST => "best[ext=mp4]/bestvideo[ext=mp4]+bestaudio[ext=m4a]/best"
    | .HD_4K => "best[height<=2160][ext=mp4]/bestvideo[height<=2160][ext=mp4]+bestaudio[ext=m4a]/best[height<=2160]"
    | .HD_1080 => "best[height<=1080][ext=mp4]/bestvideo[height<=1080][ext=mp4]+bestaudio[ext=m4a]/best[height<=1080]"
    | .HD_720 => "best[height<=720][ext=mp4]/bestvideo[height<=720][ext=mp4]+bestaudio[ext=m4a]/best[height<=720]"
    | .AUDIO_ONLY => "best[ext=mp4]/best"

/-- YouTubeDownloader._get_ydl_opts. -/
def get_ydl_opts {α : Type} (dl : YouTubeDownloader α) (quality : Quality)
    (is_playlist : Bool) (video_info : Option VideoInfo)
    (force_convert : Bool) : YdlOpts α :=
  let opts : YdlOpts α :=
    { outtmpl := get_output_template dl is_playlist video_info
      progress_hooks := [dl.progress_hook]
      no_warnings := true
      ignoreerrors := false
      extract_flat := false
      merge_output_format := "mp4" }
  if quality = Quality.AUDIO_ONLY then
    { opts with
        format := some "bestaudio/best"
        postprocessors := some [PostProcessor.FFmpegExtractAudio "mp3" "192"] }
  else
    let format_string := build_format_string quality force_convert
    let postprocessors :=
      (if force_convert && pyTruthyVideoFormat dl.preferred_format then
        [PostProcessor.FFmpegVideoConvertor dl.preferred_format.value]
      else []) ++ [PostProcessor.FFmpegMetadata]
    { opts with
        format := some format_string
        postprocessors :=
          if postprocessors.isEmpty then none else some postprocessors }

/-- Outcome test for an engine call: true when no exception was raised. -/
def exceptOk {E A : Type} : Except E A → Bool
  | .ok _ => true
  | .error _ => false

/-- YouTubeDownloader.download.  The extraction engine (yt_dlp.YoutubeDL
plus its .download method) is an oracle from options and a url list to an
exception-or-unit outcome; the console status printing has no bearing on
the result and is elided.  Returns the boolean result of the try/except
together with the trace of acquisition calls made. -/
def download {α : Type} (engine : YdlOpts α → List String → Except String Unit)
    (dl : YouTubeDownloader α) (url : String) (quality : Quality)
    (is_playlist : Bool) (video_info : Option VideoInfo)
    (force_convert : Bool) (_silent : Bool) :
    Bool × List (YdlOpts α × List String) :=
  let opts := get_ydl_opts dl quality is_playlist video_info force_convert
  match engine opts [url] with
  | .ok _ => (true, [(opts, [url])])
  | .error _ => (false, [(opts, [url])])

/-- The characters removed by the re.sub character class in app.py
clean_filename. -/
def invalidFilenameChar (c : Char) : Bool :=
  c == '<' || c == '>' || c == ':' || c == '"' || c == '/' || c == '\\' ||
  c == '|' || c == '?' || c == '*'

/-- app.py clean_filename: remove the invalid characters, strip, then cut
to the first 100 characters. -/
def clean_filename (filename : String) : String :=
  let clean_name := filename.toList.filter (fun c => !(invalidFilenameChar c))
  String.mk ((pyStripList clean_name).take 100)

/-! Helper lemmas about dropWhile-based stripping. -/

/-- Dropping a prefix ignores a non-matching last element. -/
theorem dropWhile_append_last {α : Type} (p : α → Bool) (c : α) (hc : p c = false) :
    ∀ xs : List α, List.dropWhile p (xs ++ [c]) = List.dropWhile p xs ++ [c] := by
  intro xs
  induction xs with
  | nil => simp [List.dropWhile_cons, hc]
  | cons x xs ih =>
    by_cases hx : p x = true
    · simp [List.dropWhile_cons, hx, ih]
    · simp [List.dropWhile_cons, hx]

/-- dropWhile is idempotent. -/
theorem dropWhile_dropWhile {α : Type} (p : α → Bool) :
    ∀ l : List α, List.dropWhile p (List.dropWhile p l) = List.dropWhile p l := by
  intro l
  induction l with
  | nil => rfl
  | cons x xs ih =>
    by_cases hx : p x = true
    · simp [List.dropWhile_cons, hx, ih]
    · simp [List.dropWhile_cons, hx]

/-- A list fixed by dropWhile has a non-matching head. -/
theorem head_false_of_dropWhile_eq {α : Type} (p : α → Bool) (x : α) (xs : List α)
    (h : List.dropWhile p (x :: xs) = x :: xs) : p x = false := by
  cases hpx : p x with
  | false => rfl
  | true =>
    rw [List.dropWhile_cons, if_pos hpx] at h
    have hlen := (List.dropWhile_sublist (l := xs) p).length_le
    rw [h] at hlen
    simp only [List.length_cons] at hlen
    omega

/-- A prefix of a list fixed by dropWhile is itself fixed by dropWhile. -/
theorem dropWhile_take_of_dropWhile_eq {α : Type} (p : α → Bool) (n : Nat)
    (l : List α) (h : List.dropWhile p l = l) :
    List.dropWhile p (List.take n l) = List.take n l := by
  cases l with
  | nil => simp
  | cons x xs =>
    have hx := head_false_of_dropWhile_eq p x xs h
    cases n with
    | zero => simp
    | succ m => simp [List.take_succ_cons, List.dropWhile_cons, hx]

/-- Right-stripping a list with a non-matching head keeps that head. -/
theorem rstrip_cons_of_false {α : Type} (p : α → Bool) (x : α) (xs : List α)
    (hx : p x = false) :
    List.reverse (List.dropWhile p (List.reverse (x :: xs))) =
      x :: List.reverse (List.dropWhile p (List.reverse xs)) := by
  rw [List.reverse_cons, dropWhile_append_last p x hx, List.reverse_append]
  simp

/-- Right-stripping a list fixed by dropWhile yields a list fixed by
dropWhile. -/
theorem dropWhile_rstrip {α : Type} (p : α → Bool) (l : List α)
    (h : List.dropWhile p l = l) :
    List.dropWhile p (List.reverse (List.dropWhile p (List.reverse l))) =
      List.reverse (List.dropWhile p (List.reverse l)) := by
  cases l with
  | nil => simp
  | cons x xs =>
    have hx := head_false_of_dropWhile_eq p x xs h
    rw [rstrip_cons_of_false p x xs hx, List.dropWhile_cons, if_neg (by simp [hx])]

/-- A stripped character list has no leading whitespace. -/
theorem pyStripList_no_leading (l : List Char) :
    List.dropWhile pyIsSpace (pyStripList l) = pyStripList l := by
  unfold pyStripList
  exact dropWhile_rstrip pyIsSpace (List.dropWhile pyIsSpace l)
    (dropWhile_dropWhile pyIsSpace l)

/-- Stripping only removes characters. -/
theorem mem_of_mem_pyStripList {a : Char} {l : List Char}
    (h : a ∈ pyStripList l) : a ∈ l := by
  unfold pyStripList at h
  rw [List.mem_reverse] at h
  have h1 := (List.dropWhile_sublist pyIsSpace).subset h
  rw [List.mem_reverse] at h1
  exact (List.dropWhile_sublist pyIsSpace).subset h1

/-! Claim theorems. -/

/-- C1: for every downloader state and any is_playlist / video_info
arguments, when the quality is AUDIO_ONLY the options built by
_get_ydl_opts select the format string bestaudio/best and exactly one
post-processing step, FFmpegExtractAudio with preferred codec mp3 and
preferred quality 192, regardless of force_convert and of the preferred
video format. -/
theorem audio_only_opts {α : Type} (dl : YouTubeDownloader α)
    (is_playlist : Bool) (video_info : Option VideoInfo) (force_convert : Bool) :
    (get_ydl_opts dl Quality.AUDIO_ONLY is_playlist video_info force_convert).format =
      some "bestaudio/best" ∧
    (get_ydl_opts dl Quality.AUDIO_ONLY is_playlist video_info force_convert).postprocessors =
      some [PostProcessor.FFmpegExtractAudio "mp3" "192"] :=
  ⟨rfl, rfl⟩

/-- C2: for each non-audio quality tier, with force_convert the format
expression is the relaxed one without the ext=mp4 filter and the
post-processors are FFmpegVideoConvertor to the preferred format's value
followed by FFmpegMetadata; without force_convert the format expression is
the MP4-preferring chain of that tier and the only post-processor is
FFmpegMetadata. -/
theorem video_format_policy {α : Type} (dl : YouTubeDownloader α)
    (is_playlist : Bool) (video_info : Option VideoInfo) :
    ((get_ydl_opts dl Quality.BEST is_playlist video_info true).format = some "best" ∧
      (get_ydl_opts dl Quality.BEST is_playlist video_info true).postprocessors =
        some [PostProcessor.FFmpegVideoConvertor dl.preferred_format.value,
              PostProcessor.FFmpegMetadata]) ∧
    ((get_ydl_opts dl Quality.HD_4K is_playlist video_info true).format =
        some "bestvideo[height<=2160]+bestaudio/best[height<=2160]" ∧
      (get_ydl_opts dl Quality.HD_4K is_playlist video_info true).postprocessors =
        some [PostProcessor.FFmpegVideoConvertor dl.preferred_format.value,
              PostProcessor.FFmpegMetadata]) ∧
    ((get_ydl_opts dl Quality.HD_1080 is_playlist video_info true).format =
        some "bestvideo[height<=1080]+bestaudio/best[height<=1080]" ∧
      (get_ydl_opts dl Quality.HD_1080 is_playlist video_info true).postprocessors =
        some [PostProcessor.FFmpegVideoConvertor dl.preferred_format.value,
              PostProcessor.FFmpegMetadata]) ∧
    ((get_ydl_opts dl Quality.HD_720 is_playlist video_info true).format =
        some "bestvideo[height<=720]+bestaudio/best[height<=720]" ∧
      (get_ydl_opts dl Quality.HD_720 is_playlist video_info true).postprocessors =
        some [PostProcessor.FFmpegVideoConvertor dl.preferred_format.value,
              PostProcessor.FFmpegMetadata]) ∧
    ((get_ydl_opts dl Quality.BEST is_playlist video_info false).format =
        some "best[ext=mp4]/bestvideo[ext=mp4]+bestaudio[ext=m4a]/best" ∧
      (get_ydl_opts dl Quality.BEST is_playlist video_info false).postprocessors =
        some [PostProcessor.FFmpegMetadata]) ∧
    ((get_ydl_opts dl Quality.HD_4K is_playlist video_info false).format =
        some "best[height<=2160][ext=mp4]/bestvideo[height<=2160][ext=mp4]+bestaudio[ext=m4a]/best[height<=2160]" ∧
      (get_ydl_opts dl Quality.HD_4K is_playlist video_info false).postprocessors =
        some [PostProcessor.FFmpegMetadata]) ∧
    ((get_ydl_opts dl Quality.HD_1080 is_playlist video_info false).format =
        some "best[height<=1080][ext=mp4]/bestvideo[height<=1080][ext=mp4]+bestaudio[ext=m4a]/best[height<=1080]" ∧
      (get_ydl_opts dl Quality.HD_1080 is_playlist video_info false).postprocessors =
        some [PostProcessor.FFmpegMetadata]) ∧
    ((get_ydl_opts dl Quality.HD_720 is_playlist video_info false).format =
        some "best[height<=720][ext=mp4]/bestvideo[height<=720][ext=mp4]+bestaudio[ext=m4a]/best[height<=720]" ∧
      (get_ydl_opts dl Quality.HD_720 is_playlist video_info false).postprocessors =
        some [PostProcessor.FFmpegMetadata]) :=
  ⟨⟨rfl, rfl⟩, ⟨rfl, rfl⟩, ⟨rfl, rfl⟩, ⟨rfl, rfl⟩,
   ⟨rfl, rfl⟩, ⟨rfl, rfl⟩, ⟨rfl, rfl⟩, ⟨rfl, rfl⟩⟩

/-- C8: for every quality tier and downloader state, the options built by
_get_ydl_opts force the merged container to mp4, disable warnings, set
ignoreerrors to False, and carry exactly the one stored progress hook. -/
theorem ydl_opts_invariants {α : Type} (dl : YouTubeDownloader α)
    (quality : Quality) (is_playlist : Bool) (video_info : Option VideoInfo)
    (force_convert : Bool) :
    (get_ydl_opts dl quality is_playlist video_info force_convert).merge_output_format = "mp4" ∧
    (get_ydl_opts dl quality is_playlist video_info force_convert).no_warnings = true ∧
    (get_ydl_opts dl quality is_playlist video_info force_convert).ignoreerrors = false ∧
    (get_ydl_opts dl quality is_playlist video_info force_convert).progress_hooks =
      [dl.progress_hook] := by
  cases quality <;> exact ⟨rfl, rfl, rfl, rfl⟩

/-- C4: download makes exactly one acquisition call, delegated to the
engine with the options built by _get_ydl_opts, and returns a boolean that
is true exactly when that call raised no exception; the Bool × trace
return type records that no exception escapes to the caller. -/
theorem download_reports_engine_outcome {α : Type}
    (engine : YdlOpts α → List String → Except String Unit)
    (dl : YouTubeDownloader α) (url : String) (quality : Quality)
    (is_playlist : Bool) (video_info : Option VideoInfo)
    (force_convert silent : Bool) :
    (download engine dl url quality is_playlist video_info force_convert silent).2 =
      [(get_ydl_opts dl quality is_playlist video_info force_convert, [url])] ∧
    (download engine dl url quality is_playlist video_info force_convert silent).1 =
      exceptOk (engine (get_ydl_opts dl quality is_playlist video_info force_convert) [url]) := by
  cases h : engine (get_ydl_opts dl quality is_playlist video_info force_convert) [url] <;>
    simp [download, exceptOk, h]

/-- C6: get_video_info calls the engine once with download disabled and
returns the engine's metadata on success and none whenever the engine
raises. -/
theorem get_video_info_no_download
    (engine : InfoOpts → String → Bool → Except String (Option VideoInfo))
    (url : String) (extract_flat : Bool) :
    (get_video_info engine url extract_flat).2 =
      [({ quiet := true, no_warnings := true, extract_flat := extract_flat }, url, false)] ∧
    (get_video_info engine url extract_flat).1 =
      (match engine { quiet := true, no_warnings := true, extract_flat := extract_flat } url false with
        | .ok info => info
        | .error _ => none) := by
  cases h : engine { quiet := true, no_warnings := true, extract_flat := extract_flat } url false <;>
    simp [get_video_info, h]

/-- C3: _get_output_template returns exactly one of three templates: the
custom-filename template (stem of the filename) for a truthy custom
filename on a non-playlist download, the playlist template whenever
is_playlist is set (a custom filename is ignored then), and the title
template otherwise. -/
theorem output_template_policy {α : Type} (dl : YouTubeDownloader α)
    (video_info : Option VideoInfo) :
    (∀ f, dl.custom_filename = some f → f ≠ "" →
        get_output_template dl false video_info =
          dl.output_dir ++ "/" ++ pyStem f ++ ".%(ext)s") ∧
    (get_output_template dl true video_info =
        dl.output_dir ++ "/%(playlist)s/%(playlist_index)s - %(title)s.%(ext)s") ∧
    (pyTruthyStr dl.custom_filename = false →
        get_output_template dl false video_info =
          dl.output_dir ++ "/%(title)s.%(ext)s") := by
  refine ⟨?_, ?_, ?_⟩
  · intro f hf hne
    simp [get_output_template, hf, pyTruthyStr, hne]
  · simp [get_output_template]
  · intro h0
    simp [get_output_template, h0]

/-- Witness for C3 at concrete downloader states. -/
theorem output_template_policy_witness :
    get_output_template
        (⟨"out", some "video.mp4", VideoFormat.MP4, 0⟩ : YouTubeDownloader Nat)
        false none = "out" ++ "/" ++ pyStem "video.mp4" ++ ".%(ext)s" ∧
    get_output_template
        (⟨"out", some "video.mp4", VideoFormat.MP4, 0⟩ : YouTubeDownloader Nat)
        true none = "out" ++ "/%(playlist)s/%(playlist_index)s - %(title)s.%(ext)s" ∧
    get_output_template
        (⟨"out", none, VideoFormat.MP4, 0⟩ : YouTubeDownloader Nat)
        false none = "out" ++ "/%(title)s.%(ext)s" :=
  ⟨(output_template_policy ⟨"out", some "video.mp4", VideoFormat.MP4, 0⟩ none).1
      "video.mp4" rfl (by decide),
   (output_template_policy ⟨"out", some "video.mp4", VideoFormat.MP4, 0⟩ none).2.1,
   (output_template_policy ⟨"out", none, VideoFormat.MP4, 0⟩ none).2.2 (by decide)⟩

/-- Helper: the confirmation loop answers with the url it was given. -/
theorem ask_loop_snd : ∀ (inputs : List String) (u : String) (b : Bool) (s : String),
    ask_loop inputs u = some (b, s) → s = u := by
  intro inputs
  induction inputs with
  | nil => intro u b s h; simp [ask_loop] at h
  | cons c rest ih =>
    intro u b s h
    simp only [ask_loop] at h
    split at h
    · simp only [Option.some.injEq, Prod.mk.injEq] at h
      exact h.2.symm
    · split at h
      · simp only [Option.some.injEq, Prod.mk.injEq] at h
        exact h.2.symm
      · exact ih u b s h

/-- C5: in every outcome of validate_url (pattern match, probe, user
confirmation, or rejection) the processed url is exactly the input with
leading and trailing whitespace stripped. -/
theorem validate_url_preserves_strip
    (matches_pattern test_with_ydlp : String → Bool) (inputs : List String)
    (url : String) (interactive : Bool) (b : Bool) (s : String)
    (h : validate_url matches_pattern test_with_ydlp inputs url interactive =
      some (b, s)) : s = pyStrip url := by
  simp only [validate_url] at h
  split at h
  · simp only [Option.some.injEq, Prod.mk.injEq] at h
    exact h.2.symm
  · split at h
    · simp only [Option.some.injEq, Prod.mk.injEq] at h
      exact h.2.symm
    · split at h
      · exact ask_loop_snd inputs (pyStrip url) b s h
      · simp only [Option.some.injEq, Prod.mk.injEq] at h
        exact h.2.symm

/-- Witness for C5 at a concrete call. -/
theorem validate_url_preserves_strip_witness : ("url" : String) = pyStrip " url " :=
  validate_url_preserves_strip (fun _ => true) (fun _ => false) [] " url " true
    true "url" (by decide)

/-- Helper: a progress-hook event dictionary assembled from its fields. -/
def mkStatusEvent (st : String) (db : Nat) (tb tbe : Option Nat) (fn : String) (er : Option String) : PEvent :=
  { status := st, downloaded_bytes := db, total_bytes := tb, total_bytes_estimate := tbe, filename := fn, error := er }

/-- Helper: the downloading branch of DefaultProgressHook unfolded for a
present, non-zero total. -/
theorem defaultHookCall_downloading (h : DefaultProgressHook) (d : PEvent)
    (hs : d.status = "downloading") (t : Nat) (hsel : selectedTotal d = some t)
    (ht : ¬ (t = 0)) :
    defaultHookCall h d =
      if (((d.downloaded_bytes * 100) / t : Nat) : Int) ≠ h.last_printed_percent ∧
          (((d.downloaded_bytes * 100) / t : Nat) : Int) % 2 = 0 then
        some ({ h with last_printed_percent := (((d.downloaded_bytes * 100) / t : Nat) : Int) },
          [ConsoleOut.progressBar h.current_stage ((30 * d.downloaded_bytes) / t) 30 d.downloaded_bytes t])
      else some (h, []) := by
  unfold defaultHookCall
  rw [hs, if_pos rfl, hsel]
  dsimp only
  rw [if_neg ht]

/-- Helper: the downloading branch of DefaultProgressHook with no total
present returns silently. -/
theorem defaultHookCall_downloading_none (h : DefaultProgressHook) (d : PEvent)
    (hs : d.status = "downloading") (hsel : selectedTotal d = none) :
    defaultHookCall h d = some (h, []) := by
  unfold defaultHookCall
  rw [hs, if_pos rfl, hsel]

/-- C9: on a downloading event with a positive total (when one is present),
DefaultProgressHook returns without raising; it prints exactly when a
total is carried and the integer percentage is even and differs from the
last printed one, and in every other case nothing is printed and the state
(both fields) is unchanged. -/
theorem downloading_event_throttle (h : DefaultProgressHook) (d : PEvent)
    (hs : d.status = "downloading") (hwf : selectedTotal d ≠ some 0) :
    ∃ h₂ out, defaultHookCall h d = some (h₂, out) ∧
      (out ≠ [] ↔ ∃ t, selectedTotal d = some t ∧
        (((d.downloaded_bytes * 100) / t : Nat) : Int) % 2 = 0 ∧
        (((d.downloaded_bytes * 100) / t : Nat) : Int) ≠ h.last_printed_percent) ∧
      (out = [] → h₂ = h) := by
  cases hsel : selectedTotal d with
  | none =>
    refine ⟨h, [], defaultHookCall_downloading_none h d hs hsel, ?_, fun _ => rfl⟩
    simp [hsel]
  | some t =>
    have ht : ¬ (t = 0) := fun h0 => hwf (by rw [hsel, h0])
    rw [defaultHookCall_downloading h d hs t hsel ht]
    by_cases hc : (((d.downloaded_bytes * 100) / t : Nat) : Int) ≠ h.last_printed_percent ∧
        (((d.downloaded_bytes * 100) / t : Nat) : Int) % 2 = 0
    · rw [if_pos hc]
      refine ⟨_, _, rfl, ?_, ?_⟩
      · constructor
        · intro _
          exact ⟨t, rfl, hc.2, hc.1⟩
        · intro _
          simp
      · intro hout
        simp at hout
    · rw [if_neg hc]
      refine ⟨h, [], rfl, ?_, fun _ => rfl⟩
      constructor
      · intro hne
        exact absurd rfl hne
      · rintro ⟨t', ht', heven, hdiff⟩
        injection ht' with ht''
        subst ht''
        exact (hc ⟨hdiff, heven⟩).elim

/-- Witness for C9 at a concrete state and event. -/
theorem downloading_event_throttle_witness :
    ∃ h₂ out,
      defaultHookCall DefaultProgressHook.init (mkStatusEvent "downloading" 50 (some 100) none "" none) =
        some (h₂, out) ∧
      (out ≠ [] ↔ ∃ t,
        selectedTotal (mkStatusEvent "downloading" 50 (some 100) none "" none) = some t ∧
        (((50 * 100) / t : Nat) : Int) % 2 = 0 ∧
        (((50 * 100) / t : Nat) : Int) ≠ DefaultProgressHook.init.last_printed_percent) ∧
      (out = [] → h₂ = DefaultProgressHook.init) :=
  downloading_event_throttle DefaultProgressHook.init
    (mkStatusEvent "downloading" 50 (some 100) none "" none) rfl (by decide)

/-- C7 counterexample: there is no separate started lifecycle event; an
event whose status is started is rendered by neither sink (both hooks fall
through all branches and emit nothing). -/
theorem progress_hooks_no_started_event :
    defaultHookCall DefaultProgressHook.init (mkStatusEvent "started" 0 none none "" none) =
      some (DefaultProgressHook.init, []) ∧
    streamlitHookCall { last_percent := 0 } (mkStatusEvent "started" 0 none none "" none) =
      some ({ last_percent := 0 }, ([] : List GuiOut)) :=
  ⟨rfl, rfl⟩

/-- C7 amended: the sinks receive the three lifecycle event kinds that
yt-dlp emits, downloading, finished and error, and render each of them:
finished and error events are always rendered by both sinks, and a
downloading event with a known total is rendered (subject to the console
2 percent throttle). -/
theorem progress_hooks_render_lifecycle :
    (∀ (h : DefaultProgressHook) (db : Nat) (tb tbe : Option Nat) (fn : String) (er : Option String),
      defaultHookCall h (mkStatusEvent "finished" db tb tbe fn er) =
        some (h, [ConsoleOut.downloadedLine (pyPathName fn)])) ∧
    (∀ (h : DefaultProgressHook) (db : Nat) (tb tbe : Option Nat) (fn : String) (er : Option String),
      defaultHookCall h (mkStatusEvent "error" db tb tbe fn er) =
        some (h, [ConsoleOut.errorLine (er.getD "Unknown error")])) ∧
    (defaultHookCall DefaultProgressHook.init
        (mkStatusEvent "downloading" 52428800 (some 104857600) none "" none) =
      some ({ last_printed_percent := 50, current_stage := "Downloading" },
        [ConsoleOut.progressBar "Downloading" 15 30 52428800 104857600])) ∧
    (∀ (h : StreamlitProgressHook) (db : Nat) (tb tbe : Option Nat) (fn : String) (er : Option String),
      streamlitHookCall h (mkStatusEvent "finished" db tb tbe fn er) =
        some (h, [GuiOut.barProgress 100, GuiOut.textCompleted (pyPathName fn)])) ∧
    (∀ (h : StreamlitProgressHook) (db : Nat) (tb tbe : Option Nat) (fn : String) (er : Option String),
      streamlitHookCall h (mkStatusEvent "error" db tb tbe fn er) =
        some (h, [GuiOut.textError (er.getD "Unknown error")])) ∧
    (streamlitHookCall { last_percent := 0 }
        (mkStatusEvent "downloading" 52428800 (some 104857600) none "" none) =
      some ({ last_percent := 0 },
        [GuiOut.barProgress 50, GuiOut.textDownloading 52428800 104857600])) :=
  ⟨fun _ _ _ _ _ _ => rfl, fun _ _ _ _ _ _ => rfl, by decide,
   fun _ _ _ _ _ _ => rfl, fun _ _ _ _ _ _ => rfl, by decide⟩

/-- C10 counterexample: clean_filename can return a string with trailing
whitespace, because the strip happens before the cut to 100 characters: on
99 letters, a space, and a further letter the result ends in a space. -/
theorem clean_filename_trailing_space :
    clean_filename (String.mk (List.replicate 99 'a' ++ [' ', 'b'])) =
      String.mk (List.replicate 99 'a' ++ [' ']) ∧
    ((clean_filename (String.mk (List.replicate 99 'a' ++ [' ', 'b']))).toList.getLast?).map pyIsSpace =
      some true := by
  constructor <;> decide

/-- C10 amended: for every input, clean_filename returns a string that
contains none of the nine invalid filename characters, has length at most
100 and has no leading whitespace; trailing whitespace can survive when
the 100-character cut falls just after a space. -/
theorem clean_filename_safety (s : String) :
    (clean_filename s).toList.all (fun c => !(invalidFilenameChar c)) = true ∧
    (clean_filename s).length ≤ 100 ∧
    (clean_filename s).toList.dropWhile pyIsSpace = (clean_filename s).toList := by
  refine ⟨?_, ?_, ?_⟩
  · rw [List.all_eq_true]
    intro c hc
    have h1 : c ∈ pyStripList (s.toList.filter (fun c => !(invalidFilenameChar c))) :=
      (List.take_sublist 100 _).subset hc
    have h2 := mem_of_mem_pyStripList h1
    exact (List.mem_filter.mp h2).2
  · exact List.length_take_le 100 _
  · exact dropWhile_take_of_dropWhile_eq pyIsSpace 100 _
      (pyStripList_no_leading (s.toList.filter (fun c => !(invalidFilenameChar c))))
